import Mathlib

/-!
Verification of the argument-normalization, response-serialization,
pagination-flattening and client-initialization layer of the
`todoist-mcp-server` repository (`src/server.py`, `src/utils.py`).

The Python code is shallowly embedded:

* Python runtime values that flow through this layer are modelled by the
  inductive type `PVal` (`None`, `str`, `int`, `bool`, `datetime.date`,
  `datetime.datetime`, `list`, `dict` with string keys, dataclass
  instances such as the SDK model objects, and arbitrary non-JSON
  representable objects).  `float` values never flow through the claims
  under study and are omitted.
* `json.dumps(..., default=json_datetime_serializer, indent=2)` is
  modelled by `pyToJson` (which fails, like `json.dumps`, with the
  `TypeError` text produced by the `default` hook on the first
  non-representable object met in traversal order) followed by the
  renderer `J.renderIndent`; the plain `json.dumps(...)` used for the
  fallback error envelope is modelled by `J.render` (Python's default
  separators are a comma-space and a colon-space).
* `dataclasses.asdict` is `asdict`, recursively turning dataclass
  instances into dicts through lists and dict values.
* `datetime.date.fromisoformat` / `datetime.datetime.fromisoformat` are
  modelled by `date_fromisoformat` / `datetime_fromisoformat` for the
  dashed `YYYY-MM-DD[THH:MM[:SS]]` forms that the tool layer documents;
  other ISO-8601 variants (timezone suffixes, compact forms, fractional
  seconds) are treated as unparsed and passed through as raw strings.
  The theorems below depend only on these parsers being functions.
* A backend (`TodoistAPI`) call is recorded as a `Call` (method name and
  keyword arguments); each tool model returns its JSON string envelope
  together with the ordered list of backend calls it performed.
  Paginators are modelled as functions from keyword arguments to the
  list of pages they yield.
* A raised Python exception is an `Except.error` carrying `str(e)`.
-/

/-- `datetime.date`: what the model needs of it (year, month, day). -/
structure DateV where
  year : Nat
  month : Nat
  day : Nat
deriving DecidableEq, Repr

/-- `datetime.datetime` without timezone/microsecond, which never flow
through the claims under study. -/
structure DatetimeV where
  year : Nat
  month : Nat
  day : Nat
  hour : Nat
  minute : Nat
  second : Nat
deriving DecidableEq, Repr

/-- A Python runtime value as it flows through the serialization and
argument-normalization layer. -/
inductive PVal where
  | vNone
  | vStr (s : String)
  | vInt (n : Int)
  | vBool (b : Bool)
  | vDate (d : DateV)
  | vDatetime (dt : DatetimeV)
  | vList (xs : List PVal)
  | vDict (fields : List (String × PVal))
  /-- a dataclass instance (SDK model object); `typeName` is
  `obj.__class__.__name__`. -/
  | vRecord (typeName : String) (fields : List (String × PVal))
  /-- an arbitrary object of no JSON-representable type;
  `typeName` is `obj.__class__.__name__`. -/
  | vObject (typeName : String)

/-- A JSON document, the image of `json.dumps`. -/
inductive J where
  | null
  | jbool (b : Bool)
  | jint (n : Int)
  | jstr (s : String)
  | jarr (xs : List J)
  | jobj (fields : List (String × J))

/-- One hex digit, lower case, as Python's `\uXXXX` escapes use. -/
def hexDigitChar (n : Nat) : Char :=
  if n < 10 then Char.ofNat (48 + n) else Char.ofNat (87 + n % 16)

/-- `\uXXXX` escape of a code point below `0x10000`. -/
def uEscape (n : Nat) : String :=
  "\\u" ++ (hexDigitChar (n / 4096 % 16)).toString ++ (hexDigitChar (n / 256 % 16)).toString
    ++ (hexDigitChar (n / 16 % 16)).toString ++ (hexDigitChar (n % 16)).toString

/-- Escape one character the way `json.dumps` (with its default
`ensure_ascii=True`) escapes characters inside a JSON string literal. -/
def escapeChar (c : Char) : String :=
  if c = '"' then "\\\""
  else if c = '\\' then "\\\\"
  else if c = '\n' then "\\n"
  else if c = '\r' then "\\r"
  else if c = '\t' then "\\t"
  else if c = Char.ofNat 8 then "\\b"
  else if c = Char.ofNat 12 then "\\f"
  else if c.toNat < 32 ∨ c.toNat ≥ 127 then uEscape c.toNat
  else c.toString

/-- A JSON string literal for `s`, escaped as `json.dumps` escapes it. -/
def jsonQuote (s : String) : String :=
  "\"" ++ String.join (s.toList.map escapeChar) ++ "\""

mutual
/-- Compact rendering of a JSON document: `json.dumps(x)` with Python's
default separators (comma-space between items, colon-space after keys). -/
def J.render : J → String
  | .null => "null"
  | .jbool b => if b then "true" else "false"
  | .jint n => toString n
  | .jstr s => jsonQuote s
  | .jarr [] => "[]"
  | .jarr (x :: xs) => "[" ++ J.render x ++ J.renderArrTail xs ++ "]"
  | .jobj [] => "\x7b\x7d"
  | .jobj ((k, v) :: fs) =>
      "\x7b" ++ jsonQuote k ++ ": " ++ J.render v ++ J.renderObjTail fs ++ "\x7d"

def J.renderArrTail : List J → String
  | [] => ""
  | x :: xs => ", " ++ J.render x ++ J.renderArrTail xs

def J.renderObjTail : List (String × J) → String
  | [] => ""
  | (k, v) :: fs => ", " ++ jsonQuote k ++ ": " ++ J.render v ++ J.renderObjTail fs
end

/-- `n` spaces. -/
def spacesOf (n : Nat) : String :=
  String.mk (List.replicate n ' ')

mutual
/-- Indented rendering of a JSON document at current indentation `ind`:
`json.dumps(x, indent=2)` (item separator a bare comma before the
newline, colon-space after keys, empty containers on one line). -/
def J.renderIndent (ind : Nat) : J → String
  | .null => "null"
  | .jbool b => if b then "true" else "false"
  | .jint n => toString n
  | .jstr s => jsonQuote s
  | .jarr [] => "[]"
  | .jarr (x :: xs) =>
      "[\n" ++ spacesOf (ind + 2) ++ J.renderIndent (ind + 2) x
        ++ J.renderIndentArrTail (ind + 2) xs ++ "\n" ++ spacesOf ind ++ "]"
  | .jobj [] => "\x7b\x7d"
  | .jobj ((k, v) :: fs) =>
      "\x7b\n" ++ spacesOf (ind + 2) ++ jsonQuote k ++ ": " ++ J.renderIndent (ind + 2) v
        ++ J.renderIndentObjTail (ind + 2) fs ++ "\n" ++ spacesOf ind ++ "\x7d"

def J.renderIndentArrTail (ind : Nat) : List J → String
  | [] => ""
  | x :: xs => ",\n" ++ spacesOf ind ++ J.renderIndent ind x ++ J.renderIndentArrTail ind xs

def J.renderIndentObjTail (ind : Nat) : List (String × J) → String
  | [] => ""
  | (k, v) :: fs =>
      ",\n" ++ spacesOf ind ++ jsonQuote k ++ ": " ++ J.renderIndent ind v
        ++ J.renderIndentObjTail ind fs
end

/-- Zero-padded decimal of width 2. -/
def pad2 (n : Nat) : String :=
  if n < 10 then "0" ++ toString n else toString n

/-- Zero-padded decimal of width 4. -/
def pad4 (n : Nat) : String :=
  if n < 10 then "000" ++ toString n
  else if n < 100 then "00" ++ toString n
  else if n < 1000 then "0" ++ toString n
  else toString n

/-- `datetime.date.isoformat`. -/
def DateV.isoformat (d : DateV) : String :=
  pad4 d.year ++ "-" ++ pad2 d.month ++ "-" ++ pad2 d.day

/-- `datetime.datetime.isoformat` for a value without microsecond or
timezone. -/
def DatetimeV.isoformat (dt : DatetimeV) : String :=
  pad4 dt.year ++ "-" ++ pad2 dt.month ++ "-" ++ pad2 dt.day ++ "T"
    ++ pad2 dt.hour ++ ":" ++ pad2 dt.minute ++ ":" ++ pad2 dt.second

/-- Gregorian leap year, as `datetime` uses. -/
def isLeapYear (y : Nat) : Bool :=
  (y % 4 = 0 && y % 100 ≠ 0) || y % 400 = 0

/-- Number of days of month `m` of year `y`. -/
def daysInMonth (y m : Nat) : Nat :=
  if m = 2 then (if isLeapYear y then 29 else 28)
  else if m = 4 ∨ m = 6 ∨ m = 9 ∨ m = 11 then 30
  else 31

/-- Split a character list at every occurrence of `sep`, as Python's
`str.split(sep)` does for a one-character separator (kept structural so
that concrete parses reduce in the kernel). -/
def splitOnChar (sep : Char) : List Char → List (List Char)
  | [] => [[]]
  | c :: cs =>
    if c = sep then [] :: splitOnChar sep cs
    else
      match splitOnChar sep cs with
      | [] => [[c]]
      | r :: rs => (c :: r) :: rs

/-- Non-empty and all decimal digits. -/
def allDigits (cs : List Char) : Bool :=
  cs.length > 0 && cs.all Char.isDigit

/-- Decimal value of a digit character list. -/
def natOfDigits (cs : List Char) : Nat :=
  cs.foldl (fun acc c => acc * 10 + (c.toNat - 48)) 0

/-- `datetime.date.fromisoformat` (as a parse of the character list) on
the dashed `YYYY-MM-DD` form; `none` models the `ValueError` it raises
on anything else. -/
def dateFromChars (cs : List Char) : Option DateV :=
  match splitOnChar '-' cs with
  | [y, m, d] =>
    if y.length = 4 && allDigits y && m.length = 2 && allDigits m
        && d.length = 2 && allDigits d then
      let yn := natOfDigits y
      let mn := natOfDigits m
      let dn := natOfDigits d
      if 1 ≤ yn && 1 ≤ mn && mn ≤ 12 && 1 ≤ dn && dn ≤ daysInMonth yn mn then
        some ⟨yn, mn, dn⟩
      else none
    else none
  | _ => none

/-- `datetime.date.fromisoformat`. -/
def date_fromisoformat (s : String) : Option DateV :=
  dateFromChars s.toList

/-- The `HH:MM[:SS]` time part accepted by the model (fractional seconds
and timezone suffixes are treated as unparsed). -/
def timeFromChars (cs : List Char) : Option (Nat × Nat × Nat) :=
  match splitOnChar ':' cs with
  | [h, m] =>
    if h.length = 2 && allDigits h && m.length = 2 && allDigits m
        && natOfDigits h < 24 && natOfDigits m < 60 then
      some (natOfDigits h, natOfDigits m, 0)
    else none
  | [h, m, sec] =>
    if h.length = 2 && allDigits h && m.length = 2 && allDigits m
        && sec.length = 2 && allDigits sec
        && natOfDigits h < 24 && natOfDigits m < 60 && natOfDigits sec < 60 then
      some (natOfDigits h, natOfDigits m, natOfDigits sec)
    else none
  | _ => none

/-- `datetime.datetime.fromisoformat` on the dashed
`YYYY-MM-DD[THH:MM[:SS]]` forms (a bare date parses to midnight, as in
Python); `none` models the `ValueError` on anything else. -/
def datetime_fromisoformat (s : String) : Option DatetimeV :=
  let cs := s.toList
  if cs.length ≤ 10 then
    (dateFromChars cs).map fun d => ⟨d.year, d.month, d.day, 0, 0, 0⟩
  else
    match dateFromChars (cs.take 10), cs.drop 10 with
    | some d, sep :: tpart =>
        if sep = 'T' then
          match timeFromChars tpart with
          | some (h, mi, sec) => some ⟨d.year, d.month, d.day, h, mi, sec⟩
          | none => none
        else none
    | _, _ => none

/-- `obj.__class__.__name__` for the modelled Python values. -/
def PVal.pyTypeName : PVal → String
  | .vNone => "NoneType"
  | .vStr _ => "str"
  | .vInt _ => "int"
  | .vBool _ => "bool"
  | .vDate _ => "date"
  | .vDatetime _ => "datetime"
  | .vList _ => "list"
  | .vDict _ => "dict"
  | .vRecord typeName _ => typeName
  | .vObject typeName => typeName

/-- `json_datetime_serializer` (src/server.py): the `default` hook handed
to `json.dumps`.  It turns `datetime`/`date` values into their ISO-8601
text and raises `TypeError` (here: `Except.error` with `str(e)`) on
anything else. -/
def json_datetime_serializer : PVal → Except String String
  | .vDate d => .ok d.isoformat
  | .vDatetime dt => .ok dt.isoformat
  | obj => .error ("Object of type " ++ obj.pyTypeName ++ " is not JSON serializable")

mutual
/-- The traversal done by
`json.dumps(data, default=json_datetime_serializer)`: native JSON types
are rendered structurally, anything else goes through the `default`
hook, whose `TypeError` aborts the dump at the first offending object. -/
def pyToJson : PVal → Except String J
  | .vNone => .ok .null
  | .vBool b => .ok (.jbool b)
  | .vInt n => .ok (.jint n)
  | .vStr s => .ok (.jstr s)
  | .vList xs => do pure (.jarr (← pyToJsonList xs))
  | .vDict fs => do pure (.jobj (← pyToJsonFields fs))
  | obj => (json_datetime_serializer obj).map J.jstr

def pyToJsonList : List PVal → Except String (List J)
  | [] => .ok []
  | x :: xs => do pure ((← pyToJson x) :: (← pyToJsonList xs))

def pyToJsonFields : List (String × PVal) → Except String (List (String × J))
  | [] => .ok []
  | (k, v) :: fs => do pure ((k, (← pyToJson v)) :: (← pyToJsonFields fs))
end

mutual
/-- `dataclasses.asdict`: recursively convert dataclass instances to
dicts, descending through lists and dict entries; other values are kept
(deep-copied, which is identity in this value model). -/
def asdict : PVal → PVal
  | .vRecord _ fs => .vDict (asdictFields fs)
  | .vDict fs => .vDict (asdictFields fs)
  | .vList xs => .vList (asdictList xs)
  | v => v

def asdictList : List PVal → List PVal
  | [] => []
  | x :: xs => asdict x :: asdictList xs

def asdictFields : List (String × PVal) → List (String × PVal)
  | [] => []
  | (k, v) :: fs => (k, asdict v) :: asdictFields fs
end

/-- `is_dataclass(item) and not isinstance(item, type)`: the value is a
dataclass instance (`PVal` has no class objects, so only the first
conjunct is visible in the model). -/
def is_dataclass_instance : PVal → Bool
  | .vRecord _ _ => true
  | _ => false

/-- The `prepared_data` computed by `_serialize_response` before
`json.dumps`: convert a top-level dataclass instance, or the dataclass
items of a top-level list, via `asdict`; pass everything else through. -/
def prepare_data (data : PVal) : PVal :=
  match data with
  | .vList items => .vList (items.map fun item =>
      if is_dataclass_instance item then asdict item else item)
  | _ => if is_dataclass_instance data then asdict data else data

/-- `_serialize_response` (src/server.py): serialize SDK model objects,
lists of them, or other data to a JSON string with
`json.dumps(prepared_data, default=json_datetime_serializer, indent=2)`;
if that raises `TypeError`, return the compact JSON error envelope
instead of propagating.  (`json.dumps` can only fail here through the
`default` hook's `TypeError`, so the code's second, generic `except`
branch is unreachable in the model.) -/
def _serialize_response (data : PVal) : String :=
  match pyToJson (prepare_data data) with
  | .ok j => J.renderIndent 0 j
  | .error e =>
      J.render (.jobj [("error", .jstr "Failed to serialize response"), ("details", .jstr e)])

/-- The per-key coercion inside the loop of `_prepare_api_kwargs`: date
keys parse `YYYY-MM-DD` strings into `date` values, timestamp keys parse
ISO strings into `datetime` values, malformed strings and non-strings
pass through unchanged ("Let SDK handle or raise"). -/
def coerceApiValue (k : String) (v : PVal) : PVal :=
  if k = "due_date" ∨ k = "deadline_date" then
    match v with
    | .vStr s =>
      match date_fromisoformat s with
      | some d => .vDate d
      | none => .vStr s
    | _ => v
  else if k = "due_datetime" ∨ k = "since" ∨ k = "until" then
    match v with
    | .vStr s =>
      match datetime_fromisoformat s with
      | some dt => .vDatetime dt
      | none => .vStr s
    | _ => v
  else v

/-- `v is None`. -/
def PVal.is_none : PVal → Bool
  | .vNone => true
  | _ => false

/-- `_prepare_api_kwargs` (src/server.py): filter out `None` values and
coerce date/timestamp strings, keeping the insertion order of the
remaining keys.  A Python `**kwargs` dict is modelled as an association
list with pairwise distinct keys. -/
def _prepare_api_kwargs : List (String × PVal) → List (String × PVal)
  | [] => []
  | (k, v) :: rest =>
    if v.is_none then _prepare_api_kwargs rest
    else (k, coerceApiValue k v) :: _prepare_api_kwargs rest

/-- `_fetch_all_from_paginator` (src/server.py): drain every page of the
paginator, extending `all_items` with each page in order.  The
paginator's pages are the model's input; `asyncio.to_thread` only moves
the same computation off the event loop. -/
def _fetch_all_from_paginator (pages : List (List PVal)) : List PVal :=
  pages.foldl (fun all_items page => all_items ++ page) []

/-- One backend (`TodoistAPI`) call: the SDK method invoked and the
keyword arguments passed to it. -/
structure Call where
  method : String
  kwargs : List (String × PVal)

/-- The backend client handle (`TodoistAPI(token)`). -/
structure TodoistClient where
  token : String
deriving DecidableEq, Repr

/-- `ToDoistContext` (src/server.py). -/
structure ToDoistContext where
  todoist_client : TodoistClient
deriving DecidableEq, Repr

/-- The text of the `ValueError` raised by `get_todoist_client` when the
credential is missing. -/
def tokenMissingMsg : String :=
  "TODOIST_API_TOKEN not found in environment. This token is required for the Todoist MCP to function. Please set it in your environment or provide it via Smithery configuration."

/-- `get_todoist_client` (src/utils.py): read `TODOIST_API_TOKEN` from
the environment; `if not token` (absent or empty) raise `ValueError`,
otherwise construct the `TodoistAPI` handle. -/
def get_todoist_client (env_token : Option String) : Except String TodoistClient :=
  match env_token with
  | some token => if token = "" then .error tokenMissingMsg else .ok ⟨token⟩
  | none => .error tokenMissingMsg

/-- `todoist_lifespan` (src/server.py): obtain the client and yield the
context; a `ValueError` from `get_todoist_client` is caught and
re-raised as `RuntimeError("Failed to initialize Todoist client in lifespan: ...")`. -/
def todoist_lifespan (env_token : Option String) : Except String ToDoistContext :=
  match get_todoist_client env_token with
  | .ok client => .ok ⟨client⟩
  | .error ve => .error ("Failed to initialize Todoist client in lifespan: " ++ ve)

/-- An optional string tool parameter as the Python value handed to
`_prepare_api_kwargs` (absent parameters default to `None`). -/
def pvOfOptStr : Option String → PVal
  | some s => .vStr s
  | none => .vNone

/-- An optional integer tool parameter as a Python value. -/
def pvOfOptInt : Option Int → PVal
  | some n => .vInt n
  | none => .vNone

/-- An optional boolean tool parameter as a Python value. -/
def pvOfOptBool : Option Bool → PVal
  | some b => .vBool b
  | none => .vNone

/-- An optional string-list tool parameter as a Python value. -/
def pvOfOptStrList : Option (List String) → PVal
  | some xs => .vList (xs.map PVal.vStr)
  | none => .vNone

/-- The body of the `get_task` tool (src/server.py), given the backend
`client.get_task` (which may raise): serialize the fetched task, or
catch the exception and return the error envelope
`{"error": f"Error getting task {task_id}: {str(e)}"}`. -/
def get_task_tool (backend_get : String → Except String PVal) (task_id : String) :
    String × List Call :=
  match backend_get task_id with
  | .ok task => (_serialize_response task, [⟨"get_task", [("task_id", .vStr task_id)]⟩])
  | .error e =>
      (_serialize_response (.vDict
        [("error", .vStr ("Error getting task " ++ task_id ++ ": " ++ e))]),
       [⟨"get_task", [("task_id", .vStr task_id)]⟩])

/-- A `get_task` tool invocation from process start: run
`todoist_lifespan` on the environment first; if it raises, the server
fails before any tool body runs, giving `Except.error` and an empty
backend call log. -/
def run_get_task (env_token : Option String) (backend_get : String → Except String PVal)
    (task_id : String) : Except String String × List Call :=
  match todoist_lifespan env_token with
  | .error e => (.error e, [])
  | .ok _ =>
      let (envelope, calls) := get_task_tool backend_get task_id
      (.ok envelope, calls)

/-- The `api_kwargs` built by the `get_tasks` tool (src/server.py):
note that the tool's `limit` parameter is among the entries handed to
`_prepare_api_kwargs` and hence to the backend call. -/
def get_tasks_kwargs (project_id section_id parent_id label : Option String)
    (ids : Option (List String)) (limit : Option Int) : List (String × PVal) :=
  _prepare_api_kwargs
    [("project_id", pvOfOptStr project_id), ("section_id", pvOfOptStr section_id),
     ("parent_id", pvOfOptStr parent_id), ("label", pvOfOptStr label),
     ("ids", pvOfOptStrList ids), ("limit", pvOfOptInt limit)]

/-- The `get_tasks` tool (src/server.py): build `api_kwargs` with
`_prepare_api_kwargs` (including `limit`), drain the paginator
`client.get_tasks(**api_kwargs)` fully, and serialize the flattened
list.  The paginator is modelled by the pages it yields for the given
keyword arguments. -/
def get_tasks (pager : List (String × PVal) → List (List PVal))
    (project_id section_id parent_id label : Option String)
    (ids : Option (List String)) (limit : Option Int) : String × List Call :=
  let api_kwargs := get_tasks_kwargs project_id section_id parent_id label ids limit
  let tasks := _fetch_all_from_paginator (pager api_kwargs)
  (_serialize_response (.vList tasks), [⟨"get_tasks", api_kwargs⟩])

/-- The `api_kwargs` built by the `update_task` tool (src/server.py). -/
def update_task_kwargs (content description : Option String)
    (labels : Option (List String)) (priority : Option Int)
    (due_string due_lang due_date due_datetime assignee_id : Option String)
    (day_order : Option Int) (collapsed : Option Bool) (duration : Option Int)
    (duration_unit deadline_date deadline_lang : Option String) :
    List (String × PVal) :=
  _prepare_api_kwargs
    [("content", pvOfOptStr content), ("description", pvOfOptStr description),
     ("labels", pvOfOptStrList labels), ("priority", pvOfOptInt priority),
     ("due_string", pvOfOptStr due_string), ("due_lang", pvOfOptStr due_lang),
     ("due_date", pvOfOptStr due_date), ("due_datetime", pvOfOptStr due_datetime),
     ("assignee_id", pvOfOptStr assignee_id), ("day_order", pvOfOptInt day_order),
     ("collapsed", pvOfOptBool collapsed), ("duration", pvOfOptInt duration),
     ("duration_unit", pvOfOptStr duration_unit), ("deadline_date", pvOfOptStr deadline_date),
     ("deadline_lang", pvOfOptStr deadline_lang)]

/-- The `update_task` tool (src/server.py): call the backend
`client.update_task` (which returns a success boolean in SDK v2+); on
reported success fetch the updated task with `client.get_task` and
serialize it; on reported failure return the
`{"status": "failed", "message": ...}` envelope with no read-back
call. -/
def update_task (backend_update : List (String × PVal) → Bool)
    (backend_get : String → PVal) (task_id : String)
    (content description : Option String) (labels : Option (List String))
    (priority : Option Int)
    (due_string due_lang due_date due_datetime assignee_id : Option String)
    (day_order : Option Int) (collapsed : Option Bool) (duration : Option Int)
    (duration_unit deadline_date deadline_lang : Option String) :
    String × List Call :=
  let api_kwargs := update_task_kwargs content description labels priority
    due_string due_lang due_date due_datetime assignee_id day_order collapsed
    duration duration_unit deadline_date deadline_lang
  let success := backend_update api_kwargs
  if success then
    let updated_task := backend_get task_id
    (_serialize_response updated_task,
     [⟨"update_task", ("task_id", .vStr task_id) :: api_kwargs⟩,
      ⟨"get_task", [("task_id", .vStr task_id)]⟩])
  else
    (_serialize_response (.vDict
      [("status", .vStr "failed"),
       ("message", .vStr "Update operation did not report success.")]),
     [⟨"update_task", ("task_id", .vStr task_id) :: api_kwargs⟩])

/-- The `get_projects` tool (src/server.py): drain
`client.get_projects()` (no SDK arguments) fully, then apply the
caller's `limit` as a slice only when it is non-`None` and
non-negative. -/
def get_projects (pager : List (String × PVal) → List (List PVal))
    (limit : Option Int) : String × List Call :=
  let sdk_call_kwargs : List (String × PVal) := []
  let all_projects := _fetch_all_from_paginator (pager sdk_call_kwargs)
  let final_projects_list := match limit with
    | some n => if 0 ≤ n then all_projects.take n.toNat else all_projects
    | none => all_projects
  (_serialize_response (.vList final_projects_list), [⟨"get_projects", sdk_call_kwargs⟩])

/-- The `get_sections` tool (src/server.py): forward only `project_id`
to the SDK, drain fully, then slice with `limit` only when it is
non-`None` and non-negative. -/
def get_sections (pager : List (String × PVal) → List (List PVal))
    (project_id : Option String) (limit : Option Int) : String × List Call :=
  let sdk_call_kwargs := _prepare_api_kwargs [("project_id", pvOfOptStr project_id)]
  let all_sections := _fetch_all_from_paginator (pager sdk_call_kwargs)
  let final_sections_list := match limit with
    | some n => if 0 ≤ n then all_sections.take n.toNat else all_sections
    | none => all_sections
  (_serialize_response (.vList final_sections_list), [⟨"get_sections", sdk_call_kwargs⟩])

/-- The `get_labels` tool (src/server.py): drain `client.get_labels()`
(no SDK arguments) fully, then slice with `limit` only when it is
non-`None` and non-negative. -/
def get_labels (pager : List (String × PVal) → List (List PVal))
    (limit : Option Int) : String × List Call :=
  let sdk_call_kwargs : List (String × PVal) := []
  let all_labels := _fetch_all_from_paginator (pager sdk_call_kwargs)
  let final_labels_list := match limit with
    | some n => if 0 ≤ n then all_labels.take n.toNat else all_labels
    | none => all_labels
  (_serialize_response (.vList final_labels_list), [⟨"get_labels", sdk_call_kwargs⟩])

/-- The `elif project_id:` fallback of the `get_comments` kwargs
selection. -/
def get_comments_project_kwarg : Option String → List (String × PVal)
  | some p => if p = "" then [] else [("project_id", .vStr p)]
  | none => []

/-- The `sdk_call_kwargs` selection of `get_comments` (src/server.py):
`if task_id:` forwards `task_id` (truthiness: non-`None` and
non-empty), `elif project_id:` forwards `project_id`, else nothing. -/
def get_comments_sdk_kwargs (project_id task_id : Option String) :
    List (String × PVal) :=
  match task_id with
  | some t => if t = "" then get_comments_project_kwarg project_id
              else [("task_id", .vStr t)]
  | none => get_comments_project_kwarg project_id

/-- The `get_comments` tool (src/server.py): short-circuit with an error
envelope when both ids are `None`; otherwise forward the selected id,
drain fully, then slice with `limit` only when it is non-`None` and
non-negative. -/
def get_comments (pager : List (String × PVal) → List (List PVal))
    (project_id task_id : Option String) (limit : Option Int) : String × List Call :=
  if project_id = none ∧ task_id = none then
    (_serialize_response (.vDict
      [("error", .vStr "Either project_id or task_id must be provided for get_comments.")]),
     [])
  else
    let sdk_call_kwargs := get_comments_sdk_kwargs project_id task_id
    let all_comments := _fetch_all_from_paginator (pager sdk_call_kwargs)
    let final_comments_list := match limit with
      | some n => if 0 ≤ n then all_comments.take n.toNat else all_comments
      | none => all_comments
    (_serialize_response (.vList final_comments_list), [⟨"get_comments", sdk_call_kwargs⟩])

/-- The `api_kwargs` built by the `get_completed_tasks_by_due_date`
tool (src/server.py): `since`, `until`, `project_id`, `limit` through
`_prepare_api_kwargs`. -/
def completed_by_due_date_kwargs (since untilP : String)
    (project_id : Option String) (limit : Option Int) : List (String × PVal) :=
  _prepare_api_kwargs
    [("since", .vStr since), ("until", .vStr untilP),
     ("project_id", pvOfOptStr project_id), ("limit", pvOfOptInt limit)]

/-- The `get_completed_tasks_by_due_date` tool (src/server.py): build
`api_kwargs` from `since`, `until`, `project_id`, `limit`; if the client
has a `get_completed_tasks_by_due_date` method (`hasMethod`), drain that
dedicated paginator with those kwargs; otherwise return an error
envelope without any backend call.  No filter expression is built
anywhere on this path. -/
def get_completed_tasks_by_due_date (hasMethod : Bool)
    (pager : List (String × PVal) → List (List PVal))
    (since untilP : String) (project_id : Option String) (limit : Option Int) :
    String × List Call :=
  let api_kwargs := completed_by_due_date_kwargs since untilP project_id limit
  if hasMethod then
    let tasks := _fetch_all_from_paginator (pager api_kwargs)
    (_serialize_response (.vList tasks), [⟨"get_completed_tasks_by_due_date", api_kwargs⟩])
  else
    (_serialize_response (.vDict
      [("error", .vStr "get_completed_tasks_by_due_date method not directly available in this SDK version. Requires filter-based approach.")]),
     [])

/-- Helper: `_prepare_api_kwargs` introduces no new keys. -/
theorem prepare_keys_subset (kwargs : List (String × PVal)) :
    (_prepare_api_kwargs kwargs).map Prod.fst ⊆ kwargs.map Prod.fst := by
  induction kwargs with
  | nil => simp [_prepare_api_kwargs]
  | cons hd tl ih =>
    obtain ⟨k', v'⟩ := hd
    by_cases hv : v'.is_none = true
    · simp only [_prepare_api_kwargs, hv, if_true, List.map_cons]
      exact ih.trans (List.subset_cons_self _ _)
    · simp only [_prepare_api_kwargs, hv, if_false, List.map_cons]
      exact List.cons_subset_cons _ ih

/-- Helper: kept entries survive `_prepare_api_kwargs` (coerced). -/
theorem prepare_mem_of_mem (kwargs : List (String × PVal)) (k : String) (v : PVal)
    (hmem : (k, v) ∈ kwargs) (hv : v.is_none = false) :
    (k, coerceApiValue k v) ∈ _prepare_api_kwargs kwargs := by
  induction kwargs with
  | nil => simp at hmem
  | cons hd tl ih =>
    obtain ⟨k', v'⟩ := hd
    rcases List.mem_cons.mp hmem with h | h
    · obtain ⟨hk, hv'⟩ := Prod.mk.injEq .. ▸ h
      subst hk; subst hv'
      simp [_prepare_api_kwargs, hv]
    · by_cases hv' : v'.is_none = true
      · simpa [_prepare_api_kwargs, hv'] using ih h
      · simp only [_prepare_api_kwargs, hv', if_false]
        exact List.mem_cons_of_mem _ (ih h)

/-- Claim C5: for every argument mapping (unique keys, as in a Python
`**kwargs` dict), a key supplied with the not-provided marker `None`
never appears in the output of `_prepare_api_kwargs`: absent parameters
are true omissions, never forwarded as a null marker. -/
theorem C5_absent_param_never_forwarded (kwargs : List (String × PVal)) (k : String)
    (hnodup : (kwargs.map Prod.fst).Nodup) (hmem : (k, PVal.vNone) ∈ kwargs) :
    k ∉ (_prepare_api_kwargs kwargs).map Prod.fst := by
  induction kwargs with
  | nil => simp at hmem
  | cons hd tl ih =>
    obtain ⟨k', v'⟩ := hd
    simp only [List.map_cons, List.nodup_cons] at hnodup
    obtain ⟨hk'notin, hnodup_tl⟩ := hnodup
    rcases List.mem_cons.mp hmem with h | h
    · obtain ⟨hk, hv'⟩ := Prod.mk.injEq .. ▸ h
      subst hk; subst hv'
      simp only [_prepare_api_kwargs, PVal.is_none, if_true]
      intro hin
      exact hk'notin (prepare_keys_subset tl hin)
    · have hkmem : k ∈ tl.map Prod.fst := List.mem_map.mpr ⟨(k, PVal.vNone), h, rfl⟩
      have hkk' : k ≠ k' := fun he => hk'notin (he ▸ hkmem)
      by_cases hv' : v'.is_none = true
      · simpa [_prepare_api_kwargs, hv'] using ih hnodup_tl h
      · simp only [_prepare_api_kwargs, hv', if_false, List.map_cons]
        intro hin
        rcases List.mem_cons.mp hin with he | hin2
        · exact hkk' he
        · exact ih hnodup_tl h hin2

/-- Witness for C5 at the mapping `{a: None, b: "x"}`. -/
theorem C5_witness :
    (([("a", PVal.vNone), ("b", PVal.vStr "x")].map Prod.fst).Nodup ∧
      ("a", PVal.vNone) ∈ [("a", PVal.vNone), ("b", PVal.vStr "x")]) ∧
    "a" ∉ (_prepare_api_kwargs [("a", PVal.vNone), ("b", PVal.vStr "x")]).map Prod.fst :=
  ⟨⟨by decide, by simp⟩,
   C5_absent_param_never_forwarded _ "a" (by decide) (by simp)⟩

/-- Helper: the coercion never produces the `None` marker. -/
theorem coerceApiValue_not_none (k : String) (v : PVal) (h : v.is_none = false) :
    (coerceApiValue k v).is_none = false := by
  unfold coerceApiValue
  split
  · cases v with
    | vStr s => cases hd : date_fromisoformat s <;> simp [hd, PVal.is_none]
    | _ => exact h
  · split
    · cases v with
      | vStr s => cases hd : datetime_fromisoformat s <;> simp [hd, PVal.is_none]
      | _ => exact h
    · exact h

/-- Helper: the per-key date/timestamp coercion is idempotent. -/
theorem coerceApiValue_idem (k : String) (v : PVal) :
    coerceApiValue k (coerceApiValue k v) = coerceApiValue k v := by
  by_cases h1 : k = "due_date" ∨ k = "deadline_date"
  · cases v with
    | vStr s => cases hd : date_fromisoformat s <;> simp [coerceApiValue, h1, hd]
    | _ => simp [coerceApiValue, h1]
  · by_cases h2 : k = "due_datetime" ∨ k = "since" ∨ k = "until"
    · cases v with
      | vStr s => cases hd : datetime_fromisoformat s <;> simp [coerceApiValue, h1, h2, hd]
      | _ => simp [coerceApiValue, h1, h2]
    · simp [coerceApiValue, h1, h2]

/-- Claim C6: the argument normalizer is idempotent: for every input
mapping, `_prepare_api_kwargs (_prepare_api_kwargs x) = _prepare_api_kwargs x`;
in particular re-normalizing an already-typed date or datetime value is
a no-op. -/
theorem C6_prepare_api_kwargs_idempotent (kwargs : List (String × PVal)) :
    _prepare_api_kwargs (_prepare_api_kwargs kwargs) = _prepare_api_kwargs kwargs := by
  induction kwargs with
  | nil => rfl
  | cons hd tl ih =>
    obtain ⟨k, v⟩ := hd
    by_cases hv : v.is_none = true
    · simp only [_prepare_api_kwargs, hv, if_true, ih]
    · have hv' : v.is_none = false := by simpa using hv
      have hnn := coerceApiValue_not_none k v hv'
      simp only [_prepare_api_kwargs, hv, hnn, if_false, Bool.false_eq_true,
        coerceApiValue_idem, ih]

/-- Claim C2: `_serialize_response` is total (it is a Lean function into
`String`), and whenever the prepared structure is not JSON-representable
(the dump aborts with the `TypeError` of the `default` hook), the
returned string is the rendering of a JSON object whose keys are
`error` and `details` — so it decodes to an object containing an
`error` key.  Serialization never raises past this boundary. -/
theorem C2_serialize_never_raises (v : PVal)
    (h : (pyToJson (prepare_data v)).isOk = false) :
    ∃ fields, _serialize_response v = J.render (.jobj fields) ∧
      fields.map Prod.fst = ["error", "details"] := by
  unfold _serialize_response
  cases hp : pyToJson (prepare_data v) with
  | ok j => rw [hp] at h; simp [Except.isOk, Except.toBool] at h
  | error e =>
      exact ⟨[("error", .jstr "Failed to serialize response"), ("details", .jstr e)],
        rfl, rfl⟩

/-- Witness for C2 at a bare non-representable object (e.g. a Python
`object()` slipping through). -/
theorem C2_witness :
    (pyToJson (prepare_data (.vObject "object"))).isOk = false ∧
    ∃ fields, _serialize_response (.vObject "object") = J.render (.jobj fields) ∧
      fields.map Prod.fst = ["error", "details"] :=
  ⟨rfl, C2_serialize_never_raises _ rfl⟩

/-- A backend pager yielding 3 pages of 2 items each (6 tasks total),
regardless of the kwargs it receives. -/
def sixTaskPager : List (String × PVal) → List (List PVal) := fun _ =>
  [[.vStr "t1", .vStr "t2"], [.vStr "t3", .vStr "t4"], [.vStr "t5", .vStr "t6"]]

/-- Claim C1 is false on the code: for
`get_tasks(project_id="123", limit=2)` over a pager yielding 6 items in
3 pages, the envelope serializes all 6 drained items (not the first 2),
and `limit` is forwarded to the backend call inside `api_kwargs`. -/
theorem C1_counterexample :
    (get_tasks sixTaskPager (some "123") none none none none (some 2)).1 =
      _serialize_response (.vList
        [.vStr "t1", .vStr "t2", .vStr "t3", .vStr "t4", .vStr "t5", .vStr "t6"]) ∧
    (get_tasks sixTaskPager (some "123") none none none none (some 2)).1 ≠
      _serialize_response (.vList [.vStr "t1", .vStr "t2"]) ∧
    (get_tasks sixTaskPager (some "123") none none none none (some 2)).2.map Call.kwargs =
      [[("project_id", PVal.vStr "123"), ("limit", PVal.vInt 2)]] :=
  ⟨rfl, by decide, rfl⟩

/-- Claim C1 amended: `get_tasks` drains every page and serializes the
full flattened sequence in page order with no post-drain slice; a
supplied `limit` is forwarded to the backend call as part of the
normalized `api_kwargs` rather than applied as a prefix slice. -/
theorem C1_amended (pager : List (String × PVal) → List (List PVal))
    (project_id section_id parent_id label : Option String)
    (ids : Option (List String)) (n : Int) :
    (get_tasks pager project_id section_id parent_id label ids (some n)).1 =
      _serialize_response (.vList (_fetch_all_from_paginator
        (pager (get_tasks_kwargs project_id section_id parent_id label ids (some n))))) ∧
    (get_tasks pager project_id section_id parent_id label ids (some n)).2 =
      [⟨"get_tasks", get_tasks_kwargs project_id section_id parent_id label ids (some n)⟩] ∧
    ("limit", PVal.vInt n) ∈
      get_tasks_kwargs project_id section_id parent_id label ids (some n) := by
  refine ⟨rfl, rfl, ?_⟩
  have hmem : ("limit", pvOfOptInt (some n)) ∈
      [("project_id", pvOfOptStr project_id), ("section_id", pvOfOptStr section_id),
       ("parent_id", pvOfOptStr parent_id), ("label", pvOfOptStr label),
       ("ids", pvOfOptStrList ids), ("limit", pvOfOptInt (some n))] := by simp
  have hc : coerceApiValue "limit" (pvOfOptInt (some n)) = PVal.vInt n := rfl
  have h := prepare_mem_of_mem _ "limit" (pvOfOptInt (some n)) hmem rfl
  rw [hc] at h
  exact h

/-- Claim C3 is false on the code: with no credential in the
environment, a tool invocation does not produce an error envelope at
all — client initialization fails inside the lifespan and the failure
crosses as a raised `RuntimeError` (here: `Except.error`), with zero
backend calls. -/
theorem C3_counterexample :
    (run_get_task none (fun _ => Except.ok PVal.vNone) "1").1 =
      Except.error ("Failed to initialize Todoist client in lifespan: " ++ tokenMissingMsg) ∧
    (run_get_task none (fun _ => Except.ok PVal.vNone) "1").2 = [] :=
  ⟨rfl, rfl⟩

/-- Claim C3 amended: when no credential (or an empty one) is present,
`get_todoist_client` raises a `ValueError` naming the missing
`TODOIST_API_TOKEN`; `todoist_lifespan` re-raises it as a
`RuntimeError`, so server startup fails with a raised exception, no
backend call is performed, and no tool envelope is returned. -/
theorem C3_amended (backend_get : String → Except String PVal) (task_id : String) :
    get_todoist_client none = Except.error tokenMissingMsg ∧
    run_get_task none backend_get task_id =
      (Except.error ("Failed to initialize Todoist client in lifespan: " ++ tokenMissingMsg), []) ∧
    run_get_task (some "") backend_get task_id =
      (Except.error ("Failed to initialize Todoist client in lifespan: " ++ tokenMissingMsg), []) :=
  ⟨rfl, rfl, rfl⟩

/-- Claim C4 is false on the code: a failure caught at the `get_task`
boundary yields an envelope whose only key is `error` — there is no
`details` key — and the error text is
`"Error getting task 9: boom"`, not the summary
`"Error in get_task for item 9"`. -/
theorem C4_counterexample :
    (get_task_tool (fun _ => Except.error "boom") "9").1 =
      J.renderIndent 0 (.jobj [("error", .jstr "Error getting task 9: boom")]) ∧
    ([("error", J.jstr "Error getting task 9: boom")].lookup "details" = none) ∧
    "Error getting task 9: boom" ≠ "Error in get_task for item 9" :=
  ⟨rfl, rfl, by decide⟩

/-- Claim C4 amended: every failure caught at the `get_task` boundary
produces the envelope `{"error": "Error getting task <id>: <text>"}`:
a JSON object with the single key `error` holding the raw failure text
behind a fixed per-operation phrase; no separate `details` key exists
and no authentication-based substitution of the text takes place. -/
theorem C4_amended (task_id e : String) :
    (get_task_tool (fun _ => Except.error e) task_id).1 =
      _serialize_response (.vDict
        [("error", .vStr ("Error getting task " ++ task_id ++ ": " ++ e))]) ∧
    pyToJson (prepare_data (.vDict
        [("error", .vStr ("Error getting task " ++ task_id ++ ": " ++ e))])) =
      Except.ok (.jobj [("error", .jstr ("Error getting task " ++ task_id ++ ": " ++ e))]) :=
  ⟨rfl, rfl⟩

/-- Claim C7: when the backend `update_task` call reports failure
(returns `False` without raising), the tool returns the
`{"status": "failed", "message": ...}` envelope — not an `error`
envelope — and the call log holds the update call alone: the read-back
`get_task` is never performed. -/
theorem C7_update_failed_no_readback
    (backend_update : List (String × PVal) → Bool) (backend_get : String → PVal)
    (task_id : String) (content description : Option String)
    (labels : Option (List String)) (priority : Option Int)
    (due_string due_lang due_date due_datetime assignee_id : Option String)
    (day_order : Option Int) (collapsed : Option Bool) (duration : Option Int)
    (duration_unit deadline_date deadline_lang : Option String)
    (h : backend_update (update_task_kwargs content description labels priority
      due_string due_lang due_date due_datetime assignee_id day_order collapsed
      duration duration_unit deadline_date deadline_lang) = false) :
    update_task backend_update backend_get task_id content description labels priority
      due_string due_lang due_date due_datetime assignee_id day_order collapsed
      duration duration_unit deadline_date deadline_lang =
      (_serialize_response (.vDict
        [("status", .vStr "failed"),
         ("message", .vStr "Update operation did not report success.")]),
       [⟨"update_task", ("task_id", .vStr task_id) ::
          update_task_kwargs content description labels priority
            due_string due_lang due_date due_datetime assignee_id day_order collapsed
            duration duration_unit deadline_date deadline_lang⟩]) ∧
    (update_task backend_update backend_get task_id content description labels priority
      due_string due_lang due_date due_datetime assignee_id day_order collapsed
      duration duration_unit deadline_date deadline_lang).2.map Call.method =
      ["update_task"] := by
  constructor <;> simp [update_task, h]

/-- Witness for C7: `update_task(task_id="9", priority=4)` against a
backend whose update call reports failure. -/
theorem C7_witness :
    ((fun _ : List (String × PVal) => false) (update_task_kwargs none none none (some 4)
        none none none none none none none none none none none) = false) ∧
    (update_task (fun _ => false) (fun _ => PVal.vNone) "9" none none none (some 4)
        none none none none none none none none none none none).2.map Call.method =
      ["update_task"] :=
  ⟨rfl, (C7_update_failed_no_readback (fun _ => false) (fun _ => PVal.vNone) "9"
      none none none (some 4) none none none none none none none none none none none rfl).2⟩

/-- Claim C8 is false on the code: for
`get_completed_tasks_by_due_date(since="2024-01-01", until="2024-01-31")`
(with the method available on the client), no filter expression is
built and the generic list-fetch is not used — the single backend call
is the dedicated `get_completed_tasks_by_due_date` endpoint, whose
kwargs hold the two dates coerced to typed `datetime` values. -/
theorem C8_counterexample :
    (get_completed_tasks_by_due_date true (fun _ => []) "2024-01-01" "2024-01-31"
        none none).2.map Call.method = ["get_completed_tasks_by_due_date"] ∧
    "get_tasks" ∉ (get_completed_tasks_by_due_date true (fun _ => []) "2024-01-01"
        "2024-01-31" none none).2.map Call.method ∧
    (get_completed_tasks_by_due_date true (fun _ => []) "2024-01-01" "2024-01-31"
        none none).2.map Call.kwargs =
      [[("since", PVal.vDatetime ⟨2024, 1, 1, 0, 0, 0⟩),
        ("until", PVal.vDatetime ⟨2024, 1, 31, 0, 0, 0⟩)]] :=
  ⟨rfl, by decide, rfl⟩

/-- Claim C8 amended: `get_completed_tasks_by_due_date` never builds a
filter expression: when the client exposes the dedicated method, the
only backend call is `get_completed_tasks_by_due_date` with the
normalized `since`/`until`/`project_id`/`limit` kwargs (never a
`filter` kwarg and never the generic `get_tasks` fetch); when the
method is absent, it returns an error envelope with zero backend
calls. -/
theorem C8_amended (pager : List (String × PVal) → List (List PVal))
    (since untilP : String) (project_id : Option String) (limit : Option Int) :
    (get_completed_tasks_by_due_date true pager since untilP project_id limit).2 =
      [⟨"get_completed_tasks_by_due_date",
        completed_by_due_date_kwargs since untilP project_id limit⟩] ∧
    "filter" ∉ (completed_by_due_date_kwargs since untilP project_id limit).map Prod.fst ∧
    "get_tasks" ∉ (get_completed_tasks_by_due_date true pager since untilP project_id
        limit).2.map Call.method ∧
    get_completed_tasks_by_due_date false pager since untilP project_id limit =
      (_serialize_response (.vDict
        [("error", .vStr "get_completed_tasks_by_due_date method not directly available in this SDK version. Requires filter-based approach.")]),
       []) := by
  refine ⟨rfl, ?_, ?_, rfl⟩
  · intro hin
    have h := prepare_keys_subset _ hin
    simp at h
  · intro hin
    simp [get_completed_tasks_by_due_date] at hin

/-- Claim C9: for the list tools that slice after the drain
(`get_projects`, `get_sections`, `get_labels`, `get_comments`), a
negative `limit` is ignored: the full drained list is serialized
unchanged (the slice fires only for a present, non-negative limit). -/
theorem C9_negative_limit_returns_full_list
    (pager : List (String × PVal) → List (List PVal))
    (project_id : Option String) (t : String) (n : Int)
    (hn : n < 0) (ht : ¬ t = "") :
    (get_projects pager (some n)).1 =
      _serialize_response (.vList (_fetch_all_from_paginator (pager []))) ∧
    (get_sections pager project_id (some n)).1 =
      _serialize_response (.vList (_fetch_all_from_paginator
        (pager (_prepare_api_kwargs [("project_id", pvOfOptStr project_id)])))) ∧
    (get_labels pager (some n)).1 =
      _serialize_response (.vList (_fetch_all_from_paginator (pager []))) ∧
    (get_comments pager none (some t) (some n)).1 =
      _serialize_response (.vList (_fetch_all_from_paginator
        (pager [("task_id", PVal.vStr t)]))) := by
  have hneg : ¬ (0 : Int) ≤ n := by omega
  refine ⟨?_, ?_, ?_, ?_⟩ <;>
    simp [get_projects, get_sections, get_labels, get_comments,
      get_comments_sdk_kwargs, hneg, ht]

/-- Witness for C9 at `limit = -1` over a two-page pager. -/
theorem C9_witness :
    ((-1 : Int) < 0 ∧ ¬ ("x" : String) = "") ∧
    (get_projects (fun _ => [[PVal.vStr "a"], [PVal.vStr "b"]]) (some (-1))).1 =
      _serialize_response (.vList (_fetch_all_from_paginator
        ((fun _ : List (String × PVal) => [[PVal.vStr "a"], [PVal.vStr "b"]]) []))) :=
  ⟨⟨by decide, by decide⟩,
   (C9_negative_limit_returns_full_list (fun _ => [[PVal.vStr "a"], [PVal.vStr "b"]])
      none "x" (-1) (by decide) (by decide)).1⟩

/-- Claim C10 is false on the code as universally stated: with both ids
present but `task_id` the empty string (falsy in Python), the
truthiness test `if task_id:` fails and `get_comments` forwards
`project_id` instead of `task_id`. -/
theorem C10_counterexample :
    (get_comments (fun _ => [[]]) (some "p1") (some "") none).2 =
      [⟨"get_comments", [("project_id", PVal.vStr "p1")]⟩] ∧
    (get_comments (fun _ => [[]]) (some "p1") (some "") none).2.map
      (fun c => c.kwargs.map Prod.fst) = [["project_id"]] :=
  ⟨rfl, rfl⟩

/-- Claim C10 amended: when both `task_id` and `project_id` are present
and `task_id` is non-empty (truthy), only `task_id` is forwarded to the
backend call and `project_id` is silently dropped; when `task_id` is
the empty string, a non-empty `project_id` is forwarded instead. -/
theorem C10_amended (pager : List (String × PVal) → List (List PVal))
    (p t : String) (limit : Option Int) (ht : ¬ t = "") (hp : ¬ p = "") :
    (get_comments pager (some p) (some t) limit).2 =
      [⟨"get_comments", [("task_id", PVal.vStr t)]⟩] ∧
    (get_comments pager (some p) (some "") limit).2 =
      [⟨"get_comments", [("project_id", PVal.vStr p)]⟩] := by
  constructor <;>
    simp [get_comments, get_comments_sdk_kwargs, get_comments_project_kwarg, ht, hp]

/-- Witness for C10 amended at `task_id="t1"`, `project_id="p1"`. -/
theorem C10_amended_witness :
    (¬ ("t1" : String) = "" ∧ ¬ ("p1" : String) = "") ∧
    (get_comments (fun _ => [[]]) (some "p1") (some "t1") none).2 =
      [⟨"get_comments", [("task_id", PVal.vStr "t1")]⟩] :=
  ⟨⟨by decide, by decide⟩,
   (C10_amended (fun _ => [[]]) "p1" "t1" none (by decide) (by decide)).1⟩
